import Mathlib

/-!
Verification of the identification core of the minifigure_id repository.

The Python source is shallowly embedded: pure functions become Lean
functions over `ℚ`/`ℤ`/`ℕ`/`List`, the rate limiter's mutable state becomes
explicit state passing with the wall clock `now : ℚ` as a parameter, and
fallible steps return `Except`.  External library primitives (OpenCV's
FLANN/BF matchers and histogram comparison, `json.loads`, the filesystem)
are passed in as explicit function parameters; everything the repository
itself computes (ratio tests, weights, thresholds, sorting, fusion
arithmetic, string/index parsing) is translated directly from the source.
-/

/- ------------------------------------------------------------------ -/
/- src/utils/rate_limiter.py                                          -/
/- ------------------------------------------------------------------ -/

/-- Embeds the `TokenUsage` dataclass of src/utils/rate_limiter.py. -/
structure TokenUsage where
  timestamp : ℚ
  input_tokens : ℤ
  output_tokens : ℤ
deriving DecidableEq

/-- Embeds the state and configuration of `AnthropicRateLimiter`
(src/utils/rate_limiter.py).  The two deques become lists; `time.time()`
becomes an explicit `now : ℚ` argument to each operation. -/
structure AnthropicRateLimiter where
  max_input_tokens_per_minute : ℤ
  max_requests_per_minute : ℕ
  window_seconds : ℚ
  token_usage_history : List TokenUsage
  request_timestamps : List ℚ
deriving DecidableEq

namespace AnthropicRateLimiter

/-- Embeds `_cleanup_old_usage`: pop records from the left while their
timestamp is strictly below `now - window_seconds`. -/
def cleanup_old_usage (now : ℚ) (rl : AnthropicRateLimiter) : AnthropicRateLimiter :=
  let cutoff := now - rl.window_seconds
  { rl with
    token_usage_history :=
      rl.token_usage_history.dropWhile (fun u => decide (u.timestamp < cutoff)),
    request_timestamps :=
      rl.request_timestamps.dropWhile (fun t => decide (t < cutoff)) }

/-- Embeds `_get_current_usage`: cleanup, then (input tokens, output tokens,
request count) summed over the window. -/
def get_current_usage (now : ℚ) (rl : AnthropicRateLimiter) : ℤ × ℤ × ℕ :=
  let c := cleanup_old_usage now rl
  ( (c.token_usage_history.map TokenUsage.input_tokens).sum,
    (c.token_usage_history.map TokenUsage.output_tokens).sum,
    c.request_timestamps.length )

/-- Embeds `estimate_image_tokens`.  Python's `int()` truncates toward zero;
the truncated quantity here is always nonnegative, so it is `Int.floor`. -/
def estimate_image_tokens (image_size_bytes : ℕ) : ℤ :=
  let base_tokens : ℚ := 1500
  let size_factor : ℚ := min ((image_size_bytes : ℚ) / (1024 * 1024)) 5
  let estimated_tokens : ℤ := ⌊base_tokens * (1 + size_factor * (1/2))⌋
  min estimated_tokens 4000

/-- Embeds `estimate_prompt_tokens` (`len(prompt) // 4`). -/
def estimate_prompt_tokens (prompt : String) : ℕ :=
  prompt.length / 4

/-- Embeds `can_make_request`. -/
def can_make_request (now : ℚ) (rl : AnthropicRateLimiter)
    (estimated_input_tokens : ℤ) : Bool :=
  let usage := get_current_usage now rl
  if usage.1 + estimated_input_tokens > rl.max_input_tokens_per_minute then false
  else if usage.2.2 ≥ rl.max_requests_per_minute then false
  else true

/-- Embeds the oldest-timestamp computation of `calculate_wait_time`
(lines 103-106 of the source): the head of either history, the smaller of
the two when both exist (`float('inf')` placeholders become case analysis). -/
def oldest_record_time (rl : AnthropicRateLimiter) : ℚ :=
  match rl.token_usage_history, rl.request_timestamps with
  | u :: _, t :: _ => min u.timestamp t
  | u :: _, [] => u.timestamp
  | [], t :: _ => t
  | [], [] => 0

/-- Embeds `calculate_wait_time`.  The source's `_get_current_usage()` call
mutates `self` by pruning expired records; here the pruned state `c` is
used for the subsequent reads, exactly as the mutated `self` is. -/
def calculate_wait_time (now : ℚ) (rl : AnthropicRateLimiter)
    (estimated_input_tokens : ℤ) : ℚ :=
  let c := cleanup_old_usage now rl
  if can_make_request now c estimated_input_tokens then 0
  else if c.token_usage_history.isEmpty && c.request_timestamps.isEmpty then 0
  else max 0 (oldest_record_time c + c.window_seconds - now + 1)

/-- Embeds `record_usage`: append a usage record and a request timestamp at
`now`, then prune. -/
def record_usage (now : ℚ) (rl : AnthropicRateLimiter)
    (input_tokens : ℤ) (output_tokens : ℤ) : AnthropicRateLimiter :=
  cleanup_old_usage now
    { rl with
      token_usage_history :=
        rl.token_usage_history ++ [⟨now, input_tokens, output_tokens⟩],
      request_timestamps := rl.request_timestamps ++ [now] }

end AnthropicRateLimiter

/- ------------------------------------------------------------------ -/
/- src/core/image_matcher.py                                          -/
/- ------------------------------------------------------------------ -/

/-- Embeds the feature dictionary returned by `ImageMatcher.extract_features`:
descriptor matrices are rational matrices, any of which may be `none`
(cv2's `detectAndCompute` returning `None`). -/
structure FeatureSet where
  sift_descriptors : Option (List (List ℚ))
  orb_descriptors : Option (List (List ℚ))
  color_histogram : Option (List ℚ)

/-- The OpenCV matching primitives used by `ImageMatcher`, passed in as
parameters: `knnMatch` yields, per query descriptor, the distances of its
(up to 2) nearest neighbours; `bfMatch` yields cross-checked Hamming match
distances; `compareHistCorrel` is `cv2.compareHist(..., HISTCMP_CORREL)`. -/
structure CV2 where
  knnMatch : List (List ℚ) → List (List ℚ) → List (List ℚ)
  bfMatch : List (List ℚ) → List (List ℚ) → List ℚ
  compareHistCorrel : List ℚ → List ℚ → ℚ

/-- Embeds `_match_sift_features`: Lowe's ratio test
(`m.distance < 0.7 * n.distance` over the k=2 pairs), sub-score =
good matches / total candidate matches. -/
def match_sift_features (cv : CV2) (desc1 desc2 : List (List ℚ)) : ℚ :=
  let match_list := cv.knnMatch desc1 desc2
  let good_matches := match_list.filter (fun pair =>
    match pair with
    | [m, n] => decide (m < (7/10 : ℚ) * n)
    | _ => false)
  if match_list.length > 0 then (good_matches.length : ℚ) / (match_list.length : ℚ)
  else 0

/-- Embeds `_match_orb_features`: sort the brute-force match distances,
sub-score = (matches with distance < 50) / total matches. -/
def match_orb_features (cv : CV2) (desc1 desc2 : List (List ℚ)) : ℚ :=
  let match_list := (cv.bfMatch desc1 desc2).mergeSort (fun a b => decide (a ≤ b))
  if match_list.length > 0 then
    ((match_list.filter (fun d => decide (d < (50 : ℚ)))).length : ℚ) / (match_list.length : ℚ)
  else 0

/-- Embeds `_match_color_histograms`: correlation clamped at 0. -/
def match_color_histograms (cv : CV2) (hist1 hist2 : List ℚ) : ℚ :=
  max 0 (cv.compareHistCorrel hist1 hist2)

/-- Embeds `ImageMatcher.match_features`: the weighted per-modality scores
are collected in a list (a term is present only when both feature sets have
the modality) and summed, with no renormalization of the weights. -/
def match_features (cv : CV2) (query_features database_features : FeatureSet) : ℚ :=
  let scores : List ℚ :=
    (match query_features.sift_descriptors, database_features.sift_descriptors with
     | some d1, some d2 => [match_sift_features cv d1 d2 * (2/5 : ℚ)]
     | _, _ => [])
    ++ (match query_features.orb_descriptors, database_features.orb_descriptors with
        | some d1, some d2 => [match_orb_features cv d1 d2 * (3/10 : ℚ)]
        | _, _ => [])
    ++ (match query_features.color_histogram, database_features.color_histogram with
        | some h1, some h2 => [match_color_histograms cv h1 h2 * (3/10 : ℚ)]
        | _, _ => [])
  if scores.isEmpty then 0 else scores.sum

/-- The SIFT summand of the weighted combination: present (with weight 0.4)
only when both feature sets carry SIFT descriptors. -/
def sift_term (cv : CV2) (q db : FeatureSet) : ℚ :=
  match q.sift_descriptors, db.sift_descriptors with
  | some d1, some d2 => match_sift_features cv d1 d2 * (2/5 : ℚ)
  | _, _ => 0

/-- The ORB summand of the weighted combination (weight 0.3). -/
def orb_term (cv : CV2) (q db : FeatureSet) : ℚ :=
  match q.orb_descriptors, db.orb_descriptors with
  | some d1, some d2 => match_orb_features cv d1 d2 * (3/10 : ℚ)
  | _, _ => 0

/-- The color-histogram summand of the weighted combination (weight 0.3). -/
def hist_term (cv : CV2) (q db : FeatureSet) : ℚ :=
  match q.color_histogram, db.color_histogram with
  | some h1, some h2 => match_color_histograms cv h1 h2 * (3/10 : ℚ)
  | _, _ => 0

/-- Embeds one row of the `minifigures` table as read by
`_get_all_minifigures` (`id` is the table's primary key). -/
structure MinifigRow where
  id : ℤ
  item_number : String
  name : String
  theme : String
  year_released : Option ℤ
  image_path : String

/-- Embeds the `MatchResult` dataclass of src/core/image_matcher.py. -/
structure MatchResult where
  minifigure_id : ℤ
  item_number : String
  name : String
  theme : String
  confidence : ℚ
  match_type : String
  image_path : String
  year_released : Option ℤ

/-- Embeds `_determine_match_type`. -/
def determine_match_type (confidence : ℚ) : String :=
  if (8/10 : ℚ) ≤ confidence then "exact"
  else if (6/10 : ℚ) ≤ confidence then "similar"
  else "partial"

/-- The per-row body of the scan loop of `ImageMatcher.find_matches`: skip
rows with an empty or non-existent image path or an unreadable image, score
the rest and keep only scores strictly above 0.3. -/
def find_matches_candidate (cv : CV2) (extract_features : String → Option FeatureSet)
    (image_exists : String → Bool) (query_features : FeatureSet)
    (minifig : MinifigRow) : Option MatchResult :=
  if minifig.image_path = "" then none
  else if image_exists minifig.image_path = false then none
  else
    match extract_features minifig.image_path with
    | none => none
    | some db_features =>
      let similarity := match_features cv query_features db_features
      if (3/10 : ℚ) < similarity then
        some { minifigure_id := minifig.id,
               item_number := minifig.item_number,
               name := minifig.name,
               theme := minifig.theme,
               confidence := similarity,
               match_type := determine_match_type similarity,
               image_path := minifig.image_path,
               year_released := minifig.year_released }
      else none

/-- Embeds `ImageMatcher.find_matches`: extract the query features (a `none`
models the empty dict returned on failure), scan the corpus collecting
candidates, sort by confidence descending (Python's stable sort with
`reverse=True`) and truncate to `limit`. -/
def find_matches (cv : CV2) (extract_features : String → Option FeatureSet)
    (image_exists : String → Bool) (corpus : List MinifigRow)
    (query_image_path : String) (limit : ℕ) : List MatchResult :=
  match extract_features query_image_path with
  | none => []
  | some query_features =>
    let match_list := corpus.filterMap
      (find_matches_candidate cv extract_features image_exists query_features)
    (match_list.mergeSort (fun a b => decide (b.confidence ≤ a.confidence))).take limit

/- ------------------------------------------------------------------ -/
/- src/models/schemas.py                                              -/
/- ------------------------------------------------------------------ -/

/-- Embeds the Pydantic `LegoItem`.  `ItemType` and `ItemCondition` are
string enums in the source, so the two fields are carried as their string
values ("minifigure"/"set"/"part", "new"/"used_complete"/ etc.). -/
structure LegoItem where
  item_number : Option String
  name : Option String
  item_type : String
  condition : String
  year_released : Option ℤ
  theme : Option String
  category : Option String
  pieces : Option ℤ
deriving DecidableEq

/-- Embeds the Pydantic `IdentificationResult`.  The source declares
`confidence_score: float = Field(ge=0, le=1)`, so a validated value always
carries a confidence in [0,1]. -/
structure IdentificationResult where
  confidence_score : ℚ
  identified_items : List LegoItem
  description : String
  condition_assessment : String
deriving DecidableEq

/- ------------------------------------------------------------------ -/
/- string helpers shared by the fusion and parsing code               -/
/- ------------------------------------------------------------------ -/

/-- Lower-cases a string character by character (Python `str.lower` on the
identifiers appearing here). -/
def lower (s : String) : String :=
  String.mk (s.data.map Char.toLower)

/-- Helper for Python's `a in b` on strings: does `s` start with `pat`? -/
def starts_with : List Char → List Char → Bool
  | [], _ => true
  | _ :: _, [] => false
  | a :: as, b :: bs => a = b && starts_with as bs

/-- Python's substring test `pat in s`. -/
def contains_sub (pat : List Char) : List Char → Bool
  | [] => pat.isEmpty
  | c :: rest => starts_with pat (c :: rest) || contains_sub pat rest

/- ------------------------------------------------------------------ -/
/- src/core/database_identifier.py                                    -/
/- ------------------------------------------------------------------ -/

/-- Embeds `_assess_condition_from_ai`: the first AI item whose
lower-cased name overlaps (as substring, either way) the match name gives
its condition; default `used_complete`.  An AI item whose `name` is `None`
makes the source raise `AttributeError` (aborting `_combine_results`;
the caller's total fallback then returns the AI-only result).  Such items
are skipped here, so this definition agrees with the source only on AI
results all of whose items carry a name; the theorem about the one branch
that reaches this code (the kept-nonempty branch of the fused-confidence
spec) therefore carries an explicit name-presence hypothesis, and the
claims about the other branches never invoke it. -/
def assess_condition_from_ai (ai_result : IdentificationResult)
    (item_name : String) : String :=
  match ai_result.identified_items.find? (fun item =>
    match item.name with
    | some n =>
      contains_sub (lower item_name).data (lower n).data
        || contains_sub (lower n).data (lower item_name).data
    | none => false) with
  | some item => item.condition
  | none => "used_complete"

/-- The keyword table of `_extract_category_from_name` in source (dict)
insertion order. -/
def category_keywords : List (String × List String) :=
  [ ("police", ["police", "officer", "cop"]),
    ("construction", ["construction", "worker", "builder"]),
    ("chef", ["chef", "cook", "baker"]),
    ("astronaut", ["astronaut", "space", "pilot"]),
    ("ninja", ["ninja", "warrior", "fighter"]),
    ("superhero", ["spider", "batman", "superman", "hero"]),
    ("civilian", ["civilian", "person", "figure"]),
    ("wizard", ["wizard", "magic", "sorcerer"]),
    ("knight", ["knight", "warrior", "soldier"]),
    ("pirate", ["pirate", "sailor", "captain"]) ]

/-- Embeds `_extract_category_from_name`. -/
def extract_category_from_name (name : String) : Option String :=
  let name_lower := lower name
  (category_keywords.find? (fun entry =>
    entry.2.any (fun keyword => contains_sub keyword.data name_lower.data))).map
    (fun entry => entry.1)

/-- The `LegoItem` built for a kept database match inside
`_combine_results`. -/
def lego_item_from_match (ai_result : IdentificationResult)
    (m : MatchResult) : LegoItem :=
  { item_number := some m.item_number,
    name := some m.name,
    item_type := "minifigure",
    condition := assess_condition_from_ai ai_result m.name,
    year_released := m.year_released,
    theme := some m.theme,
    category := extract_category_from_name m.name,
    pieces := none }

/-- Groups matches by theme preserving first-occurrence order
(the `themes` dict of `_create_enhanced_description`). -/
def add_to_theme_group (m : MatchResult) :
    List (String × List MatchResult) → List (String × List MatchResult)
  | [] => [(m.theme, [m])]
  | (t, ms) :: rest =>
    if t = m.theme then (t, ms ++ [m]) :: rest
    else (t, ms) :: add_to_theme_group m rest

/-- The insertion-ordered theme grouping of `_create_enhanced_description`. -/
def group_by_theme (db_matches : List MatchResult) :
    List (String × List MatchResult) :=
  db_matches.foldl (fun acc m => add_to_theme_group m acc) []

/-- Embeds `_create_enhanced_description`. -/
def create_enhanced_description (db_matches : List MatchResult)
    (ai_result : IdentificationResult) : String :=
  if db_matches.isEmpty then ai_result.description
  else
    let themes := group_by_theme db_matches
    let parts1 : List String :=
      if themes.length = 1 then
        match themes with
        | (theme, ms) :: _ =>
          ["Collection of " ++ toString ms.length ++ " " ++ theme ++ " minifigures"]
        | [] => []
      else
        ["Collection of " ++ toString db_matches.length ++ " minifigures from "
          ++ toString themes.length ++ " different themes"]
    let specific_items :=
      ((db_matches.take 5).filter (fun m => decide ((6/10 : ℚ) ≤ m.confidence))).map
        (fun m => m.name)
    let parts2 :=
      if specific_items.isEmpty then parts1
      else parts1 ++ ["Identified items include: " ++ String.intercalate ", " specific_items]
    let parts3 :=
      if ai_result.description ≠ ""
          ∧ contains_sub "Collection of".data ai_result.description.data = false then
        parts2 ++ ["Additional context: " ++ ai_result.description]
      else parts2
    String.intercalate ". " parts3 ++ "."

/-- Embeds `_create_enhanced_condition_assessment`. -/
def create_enhanced_condition_assessment (db_matches : List MatchResult)
    (ai_result : IdentificationResult) : String :=
  let ai_condition :=
    if ai_result.condition_assessment = "" then "Condition assessment not available"
    else ai_result.condition_assessment
  if db_matches.isEmpty then ai_condition
  else
    let high_confidence_matches :=
      db_matches.filter (fun m => decide ((7/10 : ℚ) ≤ m.confidence))
    if high_confidence_matches.isEmpty then ai_condition
    else
      ai_condition ++ " Database matching found "
        ++ toString high_confidence_matches.length ++ " high-confidence matches."

/-- The matches kept by the `match.confidence >= 0.4` threshold inside
`_combine_results`. -/
def kept_matches (db_matches : List MatchResult) : List MatchResult :=
  db_matches.filter (fun m => decide ((2/5 : ℚ) ≤ m.confidence))

/-- Embeds `DatabaseDrivenIdentifier._combine_results`. -/
def combine_results (db_matches : List MatchResult)
    (ai_result : IdentificationResult) (_image_path : String) :
    IdentificationResult :=
  let kept := kept_matches db_matches
  let identified_items0 := kept.map (lego_item_from_match ai_result)
  let confidence_scores0 := kept.map (fun m => m.confidence)
  let use_ai := identified_items0.isEmpty && !ai_result.identified_items.isEmpty
  let identified_items :=
    if use_ai then ai_result.identified_items else identified_items0
  let confidence_scores :=
    if use_ai then
      List.replicate ai_result.identified_items.length ai_result.confidence_score
    else confidence_scores0
  let avg_confidence :=
    if confidence_scores.isEmpty then (1/10 : ℚ)
    else
      let avg := confidence_scores.sum / (confidence_scores.length : ℚ)
      if db_matches.isEmpty then avg else min 1 (avg + 1/5)
  { confidence_score := avg_confidence,
    identified_items := identified_items,
    description := create_enhanced_description db_matches ai_result,
    condition_assessment :=
      create_enhanced_condition_assessment db_matches ai_result }

/-- Embeds the try/except structure of
`DatabaseDrivenIdentifier.identify_lego_items`: the three steps run in
sequence inside the `try`; any raised exception (an `Except.error` from any
step) is caught and the AI-only result is returned instead.  The fallible
steps are passed as `Except` computations; in the source both
`find_matches` and the AI identifier have their own internal catch-alls,
so in practice only `_combine_results` can raise here. -/
def identify_lego_items_db (find_step : Except String (List MatchResult))
    (ai_step : Except String IdentificationResult)
    (combine_step : List MatchResult → IdentificationResult →
      Except String IdentificationResult) :
    Except String IdentificationResult :=
  match find_step.bind (fun db_matches =>
          ai_step.bind (fun ai_result => combine_step db_matches ai_result)) with
  | Except.ok combined => Except.ok combined
  | Except.error _ => ai_step

/- ------------------------------------------------------------------ -/
/- src/core/lego_identifier.py (response parsing)                     -/
/- ------------------------------------------------------------------ -/

/-- The opening-brace character (written by code to stay out of string
literals). -/
def lbrace : Char := Char.ofNat 123

/-- The closing-brace character. -/
def rbrace : Char := Char.ofNat 125

/-- First index of `c` in the character list, as Python `str.find`
(without the -1 encoding; `none` stands for not found). -/
def find_idx (c : Char) : List Char → Option ℕ
  | [] => none
  | x :: xs => if x = c then some 0 else (find_idx c xs).map (· + 1)

/-- Last index of `c` in the character list, as Python `str.rfind`. -/
def rfind_idx (c : Char) : List Char → Option ℕ
  | [] => none
  | x :: xs =>
    match rfind_idx c xs with
    | some j => some (j + 1)
    | none => if x = c then some 0 else none

/-- Python `str.find`: index or -1. -/
def py_find (c : Char) (s : List Char) : ℤ :=
  ((find_idx c s).map Int.ofNat).getD (-1)

/-- Python `str.rfind`: index or -1. -/
def py_rfind (c : Char) (s : List Char) : ℤ :=
  ((rfind_idx c s).map Int.ofNat).getD (-1)

/-- Python slice `s[a:b]` for `0 ≤ a ≤ b`. -/
def py_slice (s : List Char) (a b : ℕ) : List Char :=
  (s.take b).drop a

/-- One raw item dict from the model's JSON
(`result_data["identified_items"][k]`), with every `.get` optional. -/
structure RawItem where
  item_number : Option String
  name : Option String
  item_type : Option String
  condition : Option String
  year_released : Option ℤ
  theme : Option String
  category : Option String
  pieces : Option ℤ

/-- The decoded top-level JSON object of the model response. -/
structure ParsedData where
  confidence_score : Option ℚ
  identified_items : Option (List RawItem)
  description : Option String
  condition_assessment : Option String

/-- The `item_type_mapping` dict of `identify_lego_items`. -/
def item_type_mapping : List (String × String) :=
  [ ("minifigure", "minifigure"), ("minifig", "minifigure"),
    ("figure", "minifigure"), ("set", "set"), ("part", "part"),
    ("parts", "part"), ("piece", "part"), ("pieces", "part") ]

/-- The `condition_mapping` dict of `identify_lego_items`. -/
def condition_mapping : List (String × String) :=
  [ ("new", "new"), ("mint", "new"), ("used", "used_complete"),
    ("used_complete", "used_complete"), ("complete", "used_complete"),
    ("used_incomplete", "used_incomplete"), ("incomplete", "used_incomplete"),
    ("damaged", "damaged"), ("worn", "damaged") ]

/-- `mapping.get(key, default)` on the string tables above. -/
def table_lookup (table : List (String × String)) (key default_value : String) :
    String :=
  (((table.find? (fun p => decide (p.1 = key)))).map (fun p => p.2)).getD default_value

/-- The per-item normalization of the successful-parse branch of
`identify_lego_items`. -/
def lego_item_from_raw (d : RawItem) : LegoItem :=
  let item_type_raw := lower (d.item_type.getD "minifigure")
  let item_type := table_lookup item_type_mapping item_type_raw "minifigure"
  let condition_raw := lower (d.condition.getD "used_complete")
  let condition := table_lookup condition_mapping condition_raw "used_complete"
  { item_number := d.item_number,
    name := d.name,
    item_type := item_type,
    condition := condition,
    year_released := d.year_released,
    theme := d.theme,
    category := d.category,
    pieces := d.pieces }

/-- The `IdentificationResult` built from a successfully decoded response. -/
def build_parsed_result (d : ParsedData) (response_text : List Char) :
    IdentificationResult :=
  { confidence_score := d.confidence_score.getD (1/2),
    identified_items := (d.identified_items.getD []).map lego_item_from_raw,
    description := (d.description).getD (String.mk (response_text.take 500)),
    condition_assessment :=
      (d.condition_assessment).getD "Assessment not available" }

/-- Embeds the response-parsing tail of `LegoIdentifier.identify_lego_items`
(lines 149-225): locate the first opening and last closing brace, decode
the substring (`json.loads` plus dict access is the `decode` parameter; its
failure models the exception swallowed by the outer `except`, which returns
the zero-confidence error result), or fall back to the low-confidence raw
text result when no brace-delimited region exists. -/
def identify_from_response
    (decode : List Char → Except String ParsedData)
    (response_text : List Char) : IdentificationResult :=
  let json_start := py_find lbrace response_text
  let json_end := py_rfind rbrace response_text + 1
  if json_start ≥ 0 ∧ json_end > json_start then
    match decode (py_slice response_text json_start.toNat json_end.toNat) with
    | Except.ok d => build_parsed_result d response_text
    | Except.error e =>
      { confidence_score := 0,
        identified_items := [],
        description := "Error during identification: " ++ e,
        condition_assessment := "Could not assess condition due to error" }
  else
    { confidence_score := 3/10,
      identified_items := [],
      description := String.mk (response_text.take 500),
      condition_assessment := "Could not parse detailed assessment" }

/-- The rate-limiter state of the §8 scenario: fresh limiter configured with
`maxRequestsPerWindow = 2`, `windowDurationSeconds = 60` (input-token budget
at its source default 25000), after two `record_usage` calls at `t1` and
`t2`. -/
def scenario_state (t1 t2 : ℚ) (i1 o1 i2 o2 : ℤ) : AnthropicRateLimiter :=
  AnthropicRateLimiter.record_usage t2
    (AnthropicRateLimiter.record_usage t1 ⟨25000, 2, 60, [], []⟩ i1 o1) i2 o2

/- ================================================================== -/
/- Theorems                                                           -/
/- ================================================================== -/

namespace AnthropicRateLimiter

theorem dropWhile_head_false {α : Type} (p : α → Bool) (l : List α) {a : α}
    {t : List α} (h : l.dropWhile p = a :: t) : p a = false := by
  induction l with
  | nil => simp [List.dropWhile] at h
  | cons x xs ih =>
    rw [List.dropWhile_cons] at h
    by_cases hx : p x = true
    · rw [if_pos hx] at h
      exact ih h
    · rw [if_neg hx] at h
      cases h
      exact Bool.not_eq_true _ |>.mp hx

theorem dropWhile_idem {α : Type} (p : α → Bool) (l : List α) :
    (l.dropWhile p).dropWhile p = l.dropWhile p := by
  cases h : l.dropWhile p with
  | nil => simp
  | cons a t =>
    rw [List.dropWhile_cons, if_neg]
    simp [dropWhile_head_false p l h]

theorem cleanup_old_usage_idem (now : ℚ) (rl : AnthropicRateLimiter) :
    cleanup_old_usage now (cleanup_old_usage now rl) = cleanup_old_usage now rl := by
  simp [cleanup_old_usage, dropWhile_idem]

theorem cleanup_max_input (now : ℚ) (rl : AnthropicRateLimiter) :
    (cleanup_old_usage now rl).max_input_tokens_per_minute
      = rl.max_input_tokens_per_minute := rfl

theorem cleanup_max_requests (now : ℚ) (rl : AnthropicRateLimiter) :
    (cleanup_old_usage now rl).max_requests_per_minute
      = rl.max_requests_per_minute := rfl

theorem cleanup_window (now : ℚ) (rl : AnthropicRateLimiter) :
    (cleanup_old_usage now rl).window_seconds = rl.window_seconds := rfl

theorem can_make_request_cleanup (now : ℚ) (rl : AnthropicRateLimiter) (e : ℤ) :
    can_make_request now (cleanup_old_usage now rl) e = can_make_request now rl e := by
  simp [can_make_request, get_current_usage, cleanup_old_usage_idem,
    cleanup_max_input, cleanup_max_requests]

/-- Every record surviving `cleanup_old_usage` at the head of either history
has a timestamp at or after the window cutoff, so the oldest surviving
record has not yet expired. -/
theorem oldest_record_time_ge (now : ℚ) (rl : AnthropicRateLimiter)
    (h : (cleanup_old_usage now rl).token_usage_history ≠ []
      ∨ (cleanup_old_usage now rl).request_timestamps ≠ []) :
    now - rl.window_seconds ≤ oldest_record_time (cleanup_old_usage now rl) := by
  unfold oldest_record_time
  cases ht : (cleanup_old_usage now rl).token_usage_history with
  | nil =>
    cases hr : (cleanup_old_usage now rl).request_timestamps with
    | nil => simp [ht, hr] at h
    | cons r rs =>
      have hhead := dropWhile_head_false _ _ hr
      simp only [decide_eq_false_iff_not, not_lt] at hhead
      simpa using hhead
  | cons u us =>
    have hhead := dropWhile_head_false _ _ ht
    simp only [decide_eq_false_iff_not, not_lt] at hhead
    cases hr : (cleanup_old_usage now rl).request_timestamps with
    | nil => simpa using hhead
    | cons r rs =>
      have hhead2 := dropWhile_head_false _ _ hr
      simp only [decide_eq_false_iff_not, not_lt] at hhead2
      simp only [le_min_iff]
      constructor
      · simpa using hhead
      · simpa using hhead2

end AnthropicRateLimiter

/-- C1: `can_make_request(e)` returns true exactly when the summed unexpired
input tokens plus the estimate stay within `max_input_tokens_per_minute`
AND the unexpired request count is strictly below
`max_requests_per_minute`; accepting the pending call can therefore never
push either quantity past its configured maximum while the gate is open. -/
theorem can_make_request_iff (now : ℚ) (rl : AnthropicRateLimiter) (e : ℤ) :
    AnthropicRateLimiter.can_make_request now rl e = true ↔
      ((AnthropicRateLimiter.cleanup_old_usage now rl).token_usage_history.map
          TokenUsage.input_tokens).sum + e ≤ rl.max_input_tokens_per_minute
        ∧ (AnthropicRateLimiter.cleanup_old_usage now rl).request_timestamps.length
            < rl.max_requests_per_minute := by
  unfold AnthropicRateLimiter.can_make_request AnthropicRateLimiter.get_current_usage
  dsimp only
  split_ifs with h1 h2
  · simp only [Bool.false_eq_true, false_iff]
    intro hc
    omega
  · simp only [Bool.false_eq_true, false_iff]
    intro hc
    omega
  · simp only [true_iff]
    omega

/-- C4: `estimate_image_tokens` is the formula
`min(floor(1500 + 750 * min(bytes/MB, 5)), 4000)`: base 1500, plus 50%
extra per megabyte scaled linearly with the scaling factor capped at 5 MB
worth, the whole capped at 4000; it maps 0 to 1500, is monotone
non-decreasing in the byte size, and always lies in [1500, 4000]. -/
theorem estimate_image_tokens_spec :
    AnthropicRateLimiter.estimate_image_tokens 0 = 1500
    ∧ (∀ b : ℕ, AnthropicRateLimiter.estimate_image_tokens b
        = min ⌊(1500 : ℚ) + 750 * min ((b : ℚ) / (1024 * 1024)) 5⌋ 4000)
    ∧ (∀ b1 b2 : ℕ, b1 ≤ b2 →
        AnthropicRateLimiter.estimate_image_tokens b1
          ≤ AnthropicRateLimiter.estimate_image_tokens b2)
    ∧ (∀ b : ℕ, 1500 ≤ AnthropicRateLimiter.estimate_image_tokens b
        ∧ AnthropicRateLimiter.estimate_image_tokens b ≤ 4000) := by
  have hformula : ∀ b : ℕ, AnthropicRateLimiter.estimate_image_tokens b
      = min ⌊(1500 : ℚ) + 750 * min ((b : ℚ) / (1024 * 1024)) 5⌋ 4000 := by
    intro b
    unfold AnthropicRateLimiter.estimate_image_tokens
    dsimp only
    congr 1
    congr 1
    ring
  have hmin_nonneg : ∀ b : ℕ, (0 : ℚ) ≤ min ((b : ℚ) / (1024 * 1024)) 5 := by
    intro b
    exact le_min (by positivity) (by norm_num)
  refine ⟨?_, hformula, ?_, ?_⟩
  · rw [hformula 0]
    norm_num
  · intro b1 b2 h
    rw [hformula b1, hformula b2]
    apply min_le_min _ le_rfl
    apply Int.floor_le_floor
    have hb : (b1 : ℚ) ≤ (b2 : ℚ) := by exact_mod_cast h
    gcongr
  · intro b
    rw [hformula b]
    constructor
    · apply le_min _ (by norm_num)
      apply Int.le_floor.mpr
      have := hmin_nonneg b
      push_cast
      linarith
    · exact min_le_right _ _

/-- Witness for C4: the monotonicity conjunct applied at the concrete byte
sizes 1 MB and 5 MB. -/
theorem estimate_image_tokens_spec_witness :
    AnthropicRateLimiter.estimate_image_tokens 1048576
      ≤ AnthropicRateLimiter.estimate_image_tokens 5242880 :=
  estimate_image_tokens_spec.2.2.1 1048576 5242880 (by decide)

/-- C9: `calculate_wait_time` returns 0 whenever `can_make_request` holds;
when it does not hold it returns the time remaining until the oldest
unexpired usage/request record exits the window plus a fixed 1-second
margin (a strictly positive value), and 0 in the degenerate case where no
history survives pruning; consequently, for a limiter configured with
`max_requests_per_minute = 2` and `window_seconds = 60`, after two
`record_usage` calls a third `can_make_request(0)` is false and the wait
lies in (0, 61]. -/
theorem calculate_wait_time_spec :
    (∀ (now : ℚ) (rl : AnthropicRateLimiter) (e : ℤ),
        AnthropicRateLimiter.can_make_request now rl e = true →
        AnthropicRateLimiter.calculate_wait_time now rl e = 0)
    ∧ (∀ (now : ℚ) (rl : AnthropicRateLimiter) (e : ℤ),
        (AnthropicRateLimiter.cleanup_old_usage now rl).token_usage_history = [] →
        (AnthropicRateLimiter.cleanup_old_usage now rl).request_timestamps = [] →
        AnthropicRateLimiter.calculate_wait_time now rl e = 0)
    ∧ (∀ (now : ℚ) (rl : AnthropicRateLimiter) (e : ℤ),
        AnthropicRateLimiter.can_make_request now rl e = false →
        ((AnthropicRateLimiter.cleanup_old_usage now rl).token_usage_history ≠ []
          ∨ (AnthropicRateLimiter.cleanup_old_usage now rl).request_timestamps ≠ []) →
        AnthropicRateLimiter.calculate_wait_time now rl e
            = AnthropicRateLimiter.oldest_record_time
                (AnthropicRateLimiter.cleanup_old_usage now rl)
              + rl.window_seconds - now + 1
          ∧ 0 < AnthropicRateLimiter.calculate_wait_time now rl e)
    ∧ (∀ (t1 t2 now : ℚ) (i1 o1 i2 o2 : ℤ),
        t1 ≤ t2 → t2 ≤ now → now ≤ t1 + 60 →
        AnthropicRateLimiter.can_make_request now
            (scenario_state t1 t2 i1 o1 i2 o2) 0 = false
          ∧ 0 < AnthropicRateLimiter.calculate_wait_time now
              (scenario_state t1 t2 i1 o1 i2 o2) 0
          ∧ AnthropicRateLimiter.calculate_wait_time now
              (scenario_state t1 t2 i1 o1 i2 o2) 0 ≤ 61) := by
  have hzero : ∀ (now : ℚ) (rl : AnthropicRateLimiter) (e : ℤ),
      AnthropicRateLimiter.can_make_request now rl e = true →
      AnthropicRateLimiter.calculate_wait_time now rl e = 0 := by
    intro now rl e h
    simp [AnthropicRateLimiter.calculate_wait_time,
      AnthropicRateLimiter.can_make_request_cleanup, h]
  have hdegenerate : ∀ (now : ℚ) (rl : AnthropicRateLimiter) (e : ℤ),
      (AnthropicRateLimiter.cleanup_old_usage now rl).token_usage_history = [] →
      (AnthropicRateLimiter.cleanup_old_usage now rl).request_timestamps = [] →
      AnthropicRateLimiter.calculate_wait_time now rl e = 0 := by
    intro now rl e h1 h2
    simp [AnthropicRateLimiter.calculate_wait_time, h1, h2]
  have hwait : ∀ (now : ℚ) (rl : AnthropicRateLimiter) (e : ℤ),
      AnthropicRateLimiter.can_make_request now rl e = false →
      ((AnthropicRateLimiter.cleanup_old_usage now rl).token_usage_history ≠ []
        ∨ (AnthropicRateLimiter.cleanup_old_usage now rl).request_timestamps ≠ []) →
      AnthropicRateLimiter.calculate_wait_time now rl e
          = AnthropicRateLimiter.oldest_record_time
              (AnthropicRateLimiter.cleanup_old_usage now rl)
            + rl.window_seconds - now + 1
        ∧ 0 < AnthropicRateLimiter.calculate_wait_time now rl e := by
    intro now rl e hcan hne
    have hc : AnthropicRateLimiter.can_make_request now
        (AnthropicRateLimiter.cleanup_old_usage now rl) e = false := by
      rw [AnthropicRateLimiter.can_make_request_cleanup]
      exact hcan
    have hge := AnthropicRateLimiter.oldest_record_time_ge now rl hne
    have hempty : ((AnthropicRateLimiter.cleanup_old_usage now rl).token_usage_history.isEmpty
        && (AnthropicRateLimiter.cleanup_old_usage now rl).request_timestamps.isEmpty) = false := by
      rcases hne with h | h
      · simp [List.isEmpty_iff, h]
      · simp [List.isEmpty_iff, h]
    have hval : AnthropicRateLimiter.calculate_wait_time now rl e
        = AnthropicRateLimiter.oldest_record_time
            (AnthropicRateLimiter.cleanup_old_usage now rl)
          + rl.window_seconds - now + 1 := by
      simp only [AnthropicRateLimiter.calculate_wait_time, hc, Bool.false_eq_true,
        if_false, hempty, AnthropicRateLimiter.cleanup_window]
      rw [max_eq_right]
      linarith
    refine ⟨hval, ?_⟩
    rw [hval]
    linarith
  refine ⟨hzero, hdegenerate, hwait, ?_⟩
  intro t1 t2 now i1 o1 i2 o2 h12 h2n hn1
  have e1 : ¬ (t1 < t1 - 60) := by linarith
  have e2 : ¬ (t1 < t2 - 60) := by linarith
  have e2' : ¬ (t2 < t2 - 60) := by linarith
  have e3 : ¬ (t1 < now - 60) := by linarith
  have e3' : ¬ (t2 < now - 60) := by linarith
  have hstate : scenario_state t1 t2 i1 o1 i2 o2
      = ⟨25000, 2, 60, [⟨t1, i1, o1⟩, ⟨t2, i2, o2⟩], [t1, t2]⟩ := by
    simp [scenario_state, AnthropicRateLimiter.record_usage,
      AnthropicRateLimiter.cleanup_old_usage, e1, e2, e2']
  have hcanfalse : AnthropicRateLimiter.can_make_request now
      (scenario_state t1 t2 i1 o1 i2 o2) 0 = false := by
    rw [hstate]
    simp [AnthropicRateLimiter.can_make_request,
      AnthropicRateLimiter.get_current_usage,
      AnthropicRateLimiter.cleanup_old_usage, e3, e3']
  have hwaitval : AnthropicRateLimiter.calculate_wait_time now
      (scenario_state t1 t2 i1 o1 i2 o2) 0 = t1 + 60 - now + 1 := by
    rw [hstate]
    simp [AnthropicRateLimiter.calculate_wait_time,
      AnthropicRateLimiter.can_make_request,
      AnthropicRateLimiter.get_current_usage,
      AnthropicRateLimiter.cleanup_old_usage,
      AnthropicRateLimiter.oldest_record_time, e3, e3']
    linarith
  refine ⟨hcanfalse, ?_, ?_⟩
  · rw [hwaitval]; linarith
  · rw [hwaitval]; linarith

/-- Witness for C9: the scenario conjunct instantiated with both recordings
and the check at time 0. -/
theorem calculate_wait_time_spec_witness :
    AnthropicRateLimiter.can_make_request 0 (scenario_state 0 0 0 0 0 0) 0 = false
      ∧ 0 < AnthropicRateLimiter.calculate_wait_time 0 (scenario_state 0 0 0 0 0 0) 0
      ∧ AnthropicRateLimiter.calculate_wait_time 0 (scenario_state 0 0 0 0 0 0) 0 ≤ 61 :=
  calculate_wait_time_spec.2.2.2 0 0 0 0 0 0 0 (le_refl 0) (le_refl 0) (by simp)

theorem match_sift_features_bounds (cv : CV2) (desc1 desc2 : List (List ℚ)) :
    0 ≤ match_sift_features cv desc1 desc2 ∧ match_sift_features cv desc1 desc2 ≤ 1 := by
  unfold match_sift_features
  dsimp only
  split_ifs with h
  · constructor
    · positivity
    · apply div_le_one_of_le₀
      · exact_mod_cast List.length_filter_le _ _
      · positivity
  · norm_num

theorem match_orb_features_bounds (cv : CV2) (desc1 desc2 : List (List ℚ)) :
    0 ≤ match_orb_features cv desc1 desc2 ∧ match_orb_features cv desc1 desc2 ≤ 1 := by
  unfold match_orb_features
  dsimp only
  split_ifs with h
  · constructor
    · positivity
    · apply div_le_one_of_le₀
      · exact_mod_cast List.length_filter_le _ _
      · positivity
  · norm_num

theorem match_color_histograms_bounds (cv : CV2)
    (hcorr : ∀ hist1 hist2, cv.compareHistCorrel hist1 hist2 ≤ 1)
    (hist1 hist2 : List ℚ) :
    0 ≤ match_color_histograms cv hist1 hist2
      ∧ match_color_histograms cv hist1 hist2 ≤ 1 :=
  ⟨le_max_left 0 _, max_le (by norm_num) (hcorr hist1 hist2)⟩

/-- C5: `match_features` is exactly the weighted sum 0.4 × SIFT sub-score +
0.3 × ORB sub-score + 0.3 × histogram sub-score over the modalities present
in both feature sets, with a missing modality dropping both its term and
its weight (no renormalization), and the result always lies in [0,1]
(`compareHistCorrel`, a correlation coefficient, is assumed bounded by 1,
its documented contract; the ratio-test sub-scores are bounded outright). -/
theorem match_features_spec (cv : CV2)
    (hcorr : ∀ hist1 hist2, cv.compareHistCorrel hist1 hist2 ≤ 1)
    (q db : FeatureSet) :
    match_features cv q db = sift_term cv q db + orb_term cv q db + hist_term cv q db
      ∧ 0 ≤ match_features cv q db ∧ match_features cv q db ≤ 1 := by
  have hA : 0 ≤ sift_term cv q db ∧ sift_term cv q db ≤ 2/5 := by
    unfold sift_term
    split
    · rename_i d1 d2 heq1 heq2
      obtain ⟨h0, h1⟩ := match_sift_features_bounds cv d1 d2
      constructor <;> nlinarith
    · norm_num
  have hB : 0 ≤ orb_term cv q db ∧ orb_term cv q db ≤ 3/10 := by
    unfold orb_term
    split
    · rename_i d1 d2 heq1 heq2
      obtain ⟨h0, h1⟩ := match_orb_features_bounds cv d1 d2
      constructor <;> nlinarith
    · norm_num
  have hC : 0 ≤ hist_term cv q db ∧ hist_term cv q db ≤ 3/10 := by
    unfold hist_term
    split
    · rename_i h1 h2 heq1 heq2
      obtain ⟨hc0, hc1⟩ := match_color_histograms_bounds cv hcorr h1 h2
      constructor <;> nlinarith
    · norm_num
  have heq : match_features cv q db
      = sift_term cv q db + orb_term cv q db + hist_term cv q db := by
    obtain ⟨qs, qo, qh⟩ := q
    obtain ⟨ds, dorb, dh⟩ := db
    cases qs <;> cases ds <;> cases qo <;> cases dorb <;> cases qh <;> cases dh <;>
      (simp [match_features, sift_term, orb_term, hist_term]; try ring)
  refine ⟨heq, ?_, ?_⟩
  · rw [heq]
    linarith [hA.1, hB.1, hC.1]
  · rw [heq]
    linarith [hA.2, hB.2, hC.2]

/-- Witness for C5: the bounds conjunct at a concrete backend whose
histogram comparison is constantly 1 and two fully-empty feature sets. -/
theorem match_features_spec_witness :
    0 ≤ match_features ⟨fun _ _ => [], fun _ _ => [], fun _ _ => 1⟩
        ⟨none, none, none⟩ ⟨none, none, none⟩
      ∧ match_features ⟨fun _ _ => [], fun _ _ => [], fun _ _ => 1⟩
          ⟨none, none, none⟩ ⟨none, none, none⟩ ≤ 1 :=
  (match_features_spec ⟨fun _ _ => [], fun _ _ => [], fun _ _ => 1⟩
    (fun _ _ => le_refl 1) ⟨none, none, none⟩ ⟨none, none, none⟩).2

theorem find_matches_candidate_id (cv : CV2)
    (extract_features : String → Option FeatureSet) (image_exists : String → Bool)
    (qf : FeatureSet) (minifig : MinifigRow) (m : MatchResult)
    (h : find_matches_candidate cv extract_features image_exists qf minifig = some m) :
    m.minifigure_id = minifig.id := by
  unfold find_matches_candidate at h
  split at h
  · exact Option.noConfusion h
  · split at h
    · exact Option.noConfusion h
    · split at h
      · exact Option.noConfusion h
      · dsimp only at h
        split at h
        · cases h
          rfl
        · exact Option.noConfusion h

theorem map_filterMap_sublist {α β γ : Type} (l : List α) (f : α → Option β)
    (g : β → γ) (h : α → γ) (hf : ∀ a b, f a = some b → g b = h a) :
    ((l.filterMap f).map g).Sublist (l.map h) := by
  induction l with
  | nil => simp
  | cons x xs ih =>
    cases hx : f x with
    | none =>
      rw [List.map_cons, List.filterMap_cons_none hx]
      exact ih.cons (h x)
    | some b =>
      rw [List.map_cons, List.filterMap_cons_some hx, List.map_cons, hf x b hx]
      exact ih.cons₂ (h x)

/-- C6: the match list returned by `find_matches` is sorted non-increasing
by confidence, has length at most the requested limit, and (because the
corpus primary key `id` is duplicate-free) contains no two entries with the
same `minifigure_id`. -/
theorem find_matches_spec (cv : CV2)
    (extract_features : String → Option FeatureSet) (image_exists : String → Bool)
    (corpus : List MinifigRow) (query_image_path : String) (limit : ℕ)
    (hids : (corpus.map MinifigRow.id).Nodup) :
    (find_matches cv extract_features image_exists corpus query_image_path
        limit).Pairwise (fun a b => b.confidence ≤ a.confidence)
      ∧ (find_matches cv extract_features image_exists corpus query_image_path
          limit).length ≤ limit
      ∧ ((find_matches cv extract_features image_exists corpus query_image_path
          limit).map MatchResult.minifigure_id).Nodup := by
  unfold find_matches
  cases hq : extract_features query_image_path with
  | none => simp
  | some qf =>
    dsimp only
    refine ⟨?_, ?_, ?_⟩
    · have hs := @List.sorted_mergeSort MatchResult
        (fun a b : MatchResult => decide (b.confidence ≤ a.confidence))
        (fun a b c hab hbc => by
          simp only [decide_eq_true_eq] at hab hbc ⊢
          exact le_trans hbc hab)
        (fun a b => by
          simp only [Bool.or_eq_true, decide_eq_true_eq]
          exact le_total b.confidence a.confidence)
        (corpus.filterMap (find_matches_candidate cv extract_features image_exists qf))
      have hs' : ((corpus.filterMap
          (find_matches_candidate cv extract_features image_exists qf)).mergeSort
            (fun a b => decide (b.confidence ≤ a.confidence))).Pairwise
          (fun a b => b.confidence ≤ a.confidence) :=
        hs.imp (fun hab => by simpa using hab)
      exact hs'.sublist (List.take_sublist _ _)
    · exact List.length_take_le _ _
    · have hsub : (((corpus.filterMap
          (find_matches_candidate cv extract_features image_exists qf))).map
            MatchResult.minifigure_id).Sublist (corpus.map MinifigRow.id) :=
        map_filterMap_sublist corpus _ _ _
          (fun row m hm => find_matches_candidate_id cv extract_features
            image_exists qf row m hm)
      have hml_nodup := hids.sublist hsub
      have hperm := (List.mergeSort_perm (corpus.filterMap
          (find_matches_candidate cv extract_features image_exists qf))
          (fun a b => decide (b.confidence ≤ a.confidence))).map
          MatchResult.minifigure_id
      have hsort_nodup := hperm.symm.nodup hml_nodup
      rw [List.map_take]
      exact hsort_nodup.sublist (List.take_sublist _ _)

/-- Witness for C6: the guarantees instantiated on an empty corpus with a
trivial backend. -/
theorem find_matches_spec_witness :
    (find_matches ⟨fun _ _ => [], fun _ _ => [], fun _ _ => 0⟩ (fun _ => none)
        (fun _ => false) [] "query.jpg" 5).Pairwise
          (fun a b => b.confidence ≤ a.confidence)
      ∧ (find_matches ⟨fun _ _ => [], fun _ _ => [], fun _ _ => 0⟩ (fun _ => none)
          (fun _ => false) [] "query.jpg" 5).length ≤ 5
      ∧ ((find_matches ⟨fun _ _ => [], fun _ _ => [], fun _ _ => 0⟩ (fun _ => none)
          (fun _ => false) [] "query.jpg" 5).map MatchResult.minifigure_id).Nodup :=
  find_matches_spec ⟨fun _ _ => [], fun _ _ => [], fun _ _ => 0⟩ (fun _ => none)
    (fun _ => false) [] "query.jpg" 5 (by simp)

theorem kept_matches_ge (db_matches : List MatchResult) :
    ∀ m ∈ kept_matches db_matches, (2/5 : ℚ) ≤ m.confidence := by
  intro m hm
  unfold kept_matches at hm
  have h := (List.mem_filter.mp hm).2
  simpa using h

/-- C2 (amended): the fused confidence is the mean of the kept
(similarity ≥ 0.4) scores, or the AI confidence when falling back to a
nonempty AI item list, or exactly 0.1 when both are empty; the flat +0.2
boost (followed by the clamp at 1) is applied exactly when the *input*
MatchResult list is nonempty, whether or not any match survived the
threshold; the result always lies in [0,1] for a validated AI confidence.
The name-presence hypothesis restricts the statement to AI results all of
whose items carry a name: an AI item with `name = None` makes the source's
`_combine_results` raise `AttributeError` on the kept-nonempty path (the
caller then falls back to the AI-only result), a path this total embedding
does not take. -/
theorem combine_results_confidence_spec (db_matches : List MatchResult)
    (ai_result : IdentificationResult) (image_path : String)
    (_hnames : ∀ item ∈ ai_result.identified_items, item.name ≠ none)
    (h0 : 0 ≤ ai_result.confidence_score) (h1 : ai_result.confidence_score ≤ 1) :
    (kept_matches db_matches ≠ [] →
      (combine_results db_matches ai_result image_path).confidence_score
        = min 1 (((kept_matches db_matches).map (fun m => m.confidence)).sum
            / ((kept_matches db_matches).length : ℚ) + 1/5))
    ∧ (kept_matches db_matches = [] → ai_result.identified_items ≠ [] →
        db_matches ≠ [] →
      (combine_results db_matches ai_result image_path).confidence_score
        = min 1 (ai_result.confidence_score + 1/5))
    ∧ (kept_matches db_matches = [] → ai_result.identified_items ≠ [] →
        db_matches = [] →
      (combine_results db_matches ai_result image_path).confidence_score
        = ai_result.confidence_score)
    ∧ (kept_matches db_matches = [] → ai_result.identified_items = [] →
      (combine_results db_matches ai_result image_path).confidence_score = 1/10)
    ∧ 0 ≤ (combine_results db_matches ai_result image_path).confidence_score
    ∧ (combine_results db_matches ai_result image_path).confidence_score ≤ 1 := by
  have hA : kept_matches db_matches ≠ [] →
      (combine_results db_matches ai_result image_path).confidence_score
        = min 1 (((kept_matches db_matches).map (fun m => m.confidence)).sum
            / ((kept_matches db_matches).length : ℚ) + 1/5) := by
    intro hne
    have hdb : db_matches.isEmpty = false := by
      cases hd : db_matches with
      | nil => exact absurd (by simp [kept_matches, hd]) hne
      | cons x xs => rfl
    obtain ⟨a, t, hcons⟩ := List.exists_cons_of_ne_nil hne
    simp [combine_results, hcons, hdb]
  have hB : kept_matches db_matches = [] → ai_result.identified_items ≠ [] →
      db_matches ≠ [] →
      (combine_results db_matches ai_result image_path).confidence_score
        = min 1 (ai_result.confidence_score + 1/5) := by
    intro hkp hai hdbne
    obtain ⟨a, t, hai_cons⟩ := List.exists_cons_of_ne_nil hai
    have hdbe : db_matches.isEmpty = false := by
      cases hd : db_matches with
      | nil => exact absurd hd hdbne
      | cons x xs => rfl
    have hlen : ((t.length : ℚ) + 1) ≠ 0 := by positivity
    simp [combine_results, hkp, hai_cons, hdbe, List.sum_replicate, mul_comm]
    rw [mul_div_assoc]
    rw [div_self (by exact_mod_cast hlen), mul_one]
  have hC : kept_matches db_matches = [] → ai_result.identified_items ≠ [] →
      db_matches = [] →
      (combine_results db_matches ai_result image_path).confidence_score
        = ai_result.confidence_score := by
    intro hkp hai hdbnil
    subst hdbnil
    obtain ⟨a, t, hai_cons⟩ := List.exists_cons_of_ne_nil hai
    have hlen : ((t.length : ℚ) + 1) ≠ 0 := by positivity
    simp [combine_results, kept_matches, hai_cons, List.sum_replicate, mul_comm]
    rw [mul_div_assoc]
    rw [div_self (by exact_mod_cast hlen), mul_one]
  have hD : kept_matches db_matches = [] → ai_result.identified_items = [] →
      (combine_results db_matches ai_result image_path).confidence_score = 1/10 := by
    intro hkp hai
    simp [combine_results, hkp, hai]
  refine ⟨hA, hB, hC, hD, ?_⟩
  by_cases hkp : kept_matches db_matches = []
  · by_cases hai : ai_result.identified_items = []
    · rw [hD hkp hai]
      norm_num
    · by_cases hdb : db_matches = []
      · rw [hC hkp hai hdb]
        exact ⟨h0, h1⟩
      · rw [hB hkp hai hdb]
        constructor
        · exact le_min (by norm_num) (by linarith)
        · exact min_le_left _ _
  · rw [hA hkp]
    have hsum : 0 ≤ ((kept_matches db_matches).map (fun m => m.confidence)).sum := by
      apply List.sum_nonneg
      intro x hx
      obtain ⟨m, hm, rfl⟩ := List.mem_map.mp hx
      have := kept_matches_ge db_matches m hm
      linarith
    have hlen : (0 : ℚ) ≤ ((kept_matches db_matches).length : ℚ) := by positivity
    constructor
    · exact le_min (by norm_num) (by positivity)
    · exact min_le_left _ _

/-- Counterexample for C2 as frozen: with one sub-threshold match
(similarity 0.3 < 0.4) and an AI result of confidence 0.5 carrying one
item, no MatchResult is used (the AI items are returned verbatim), yet the
fused confidence is 0.7 = 0.5 + 0.2, not the claimed plain AI confidence:
the +0.2 boost keys on the raw input list being nonempty, not on any
MatchResult being used. -/
theorem combine_results_boost_counterexample :
    (⟨1, "mk001", "Lowscore Minifig", "City", 3/10, "partial", "img.png", none⟩
        : MatchResult).confidence < 2/5
    ∧ (combine_results
        [⟨1, "mk001", "Lowscore Minifig", "City", 3/10, "partial", "img.png", none⟩]
        ⟨1/2, [⟨none, some "Generic Figure", "minifigure", "used_complete",
            none, some "Generic", none, none⟩], "AI description", "AI condition"⟩
        "img.jpg").identified_items
      = (⟨1/2, [⟨none, some "Generic Figure", "minifigure", "used_complete",
            none, some "Generic", none, none⟩], "AI description", "AI condition"⟩
          : IdentificationResult).identified_items
    ∧ (⟨1/2, [⟨none, some "Generic Figure", "minifigure", "used_complete",
          none, some "Generic", none, none⟩], "AI description", "AI condition"⟩
        : IdentificationResult).confidence_score = 1/2
    ∧ (combine_results
        [⟨1, "mk001", "Lowscore Minifig", "City", 3/10, "partial", "img.png", none⟩]
        ⟨1/2, [⟨none, some "Generic Figure", "minifigure", "used_complete",
            none, some "Generic", none, none⟩], "AI description", "AI condition"⟩
        "img.jpg").confidence_score = 7/10 := by
  refine ⟨by norm_num, ?_, rfl, ?_⟩
  · norm_num [combine_results, kept_matches]
  · norm_num [combine_results, kept_matches]

/-- Witness for the amended C2: the both-empty branch at a concrete AI
result of confidence 1. -/
theorem combine_results_confidence_spec_witness :
    (combine_results [] ⟨1, [], "d", "c"⟩ "p").confidence_score = 1/10 :=
  (combine_results_confidence_spec [] ⟨1, [], "d", "c"⟩ "p"
    (fun item h => absurd h (List.not_mem_nil item)) zero_le_one
    (le_refl 1)).2.2.2.1 rfl rfl

/-- C8: when no MatchResult clears the 0.4 threshold, the fused item list
is exactly the AI result's item list, verbatim (this also covers the case
of an empty AI item list). -/
theorem combine_results_ai_items_verbatim (db_matches : List MatchResult)
    (ai_result : IdentificationResult) (image_path : String)
    (h : ∀ m ∈ db_matches, m.confidence < (2/5 : ℚ)) :
    (combine_results db_matches ai_result image_path).identified_items
      = ai_result.identified_items := by
  have hkp : kept_matches db_matches = [] := by
    unfold kept_matches
    rw [List.filter_eq_nil_iff]
    intro a ha
    simp only [decide_eq_true_eq, not_le]
    exact h a ha
  by_cases hai : ai_result.identified_items = []
  · simp [combine_results, hkp, hai]
  · obtain ⟨a, t, hai_cons⟩ := List.exists_cons_of_ne_nil hai
    simp [combine_results, hkp, hai_cons]

/-- Witness for C8: no matches at all, AI result with one item. -/
theorem combine_results_ai_items_verbatim_witness :
    (combine_results []
        ⟨1/2, [⟨none, some "Officer", "minifigure", "used_complete", none,
            some "City", none, none⟩], "d", "c"⟩ "p").identified_items
      = (⟨1/2, [⟨none, some "Officer", "minifigure", "used_complete", none,
            some "City", none, none⟩], "d", "c"⟩
          : IdentificationResult).identified_items :=
  combine_results_ai_items_verbatim []
    ⟨1/2, [⟨none, some "Officer", "minifigure", "used_complete", none,
        some "City", none, none⟩], "d", "c"⟩ "p"
    (fun m hm => absurd hm (List.not_mem_nil m))

/-- C10: when no MatchResult clears the 0.4 threshold and the AI item list
is empty, the fused result has an empty item list and confidence exactly
0.1, regardless of the AI result's own confidence score. -/
theorem combine_results_empty_low (db_matches : List MatchResult)
    (ai_result : IdentificationResult) (image_path : String)
    (h : ∀ m ∈ db_matches, m.confidence < (2/5 : ℚ))
    (hai : ai_result.identified_items = []) :
    (combine_results db_matches ai_result image_path).identified_items = []
      ∧ (combine_results db_matches ai_result image_path).confidence_score
          = 1/10 := by
  have hkp : kept_matches db_matches = [] := by
    unfold kept_matches
    rw [List.filter_eq_nil_iff]
    intro a ha
    simp only [decide_eq_true_eq, not_le]
    exact h a ha
  constructor
  · simp [combine_results, hkp, hai]
  · simp [combine_results, hkp, hai]

/-- Witness for C10: no matches, empty AI item list with AI confidence
0.9. -/
theorem combine_results_empty_low_witness :
    (combine_results [] ⟨9/10, [], "d", "c"⟩ "p").identified_items = []
      ∧ (combine_results [] ⟨9/10, [], "d", "c"⟩ "p").confidence_score = 1/10 :=
  combine_results_empty_low [] ⟨9/10, [], "d", "c"⟩ "p"
    (fun m hm => absurd hm (List.not_mem_nil m)) rfl

/-- C3: whenever the fused pathway raises (any step of the try block
returns an error), `identify_lego_items_db` discards the local-match work
and returns the AI-only result unmodified; and given that the AI step
itself succeeds (it has its own internal catch-all in the source), no
error ever crosses the boundary. -/
theorem identify_db_fallback (find_step : Except String (List MatchResult))
    (ai_step : Except String IdentificationResult)
    (combine_step : List MatchResult → IdentificationResult →
      Except String IdentificationResult)
    (a : IdentificationResult) (hai : ai_step = Except.ok a) :
    (∀ msg, find_step.bind (fun db_matches =>
        ai_step.bind (fun ai_result => combine_step db_matches ai_result))
          = Except.error msg →
      identify_lego_items_db find_step ai_step combine_step = Except.ok a)
    ∧ (∃ r, identify_lego_items_db find_step ai_step combine_step
        = Except.ok r) := by
  subst hai
  constructor
  · intro msg hmsg
    unfold identify_lego_items_db
    rw [hmsg]
  · unfold identify_lego_items_db
    cases hbind : find_step.bind (fun db_matches =>
        (Except.ok a : Except String IdentificationResult).bind
          (fun ai_result => combine_step db_matches ai_result)) with
    | ok r => exact ⟨r, rfl⟩
    | error e => exact ⟨a, rfl⟩

/-- Witness for C3: a combine step that always raises sends back the AI
result unmodified. -/
theorem identify_db_fallback_witness :
    identify_lego_items_db (Except.ok [])
        (Except.ok (⟨1/2, [], "ai", "cond"⟩ : IdentificationResult))
        (fun _ _ => Except.error "boom")
      = Except.ok (⟨1/2, [], "ai", "cond"⟩ : IdentificationResult) :=
  (identify_db_fallback (Except.ok []) (Except.ok ⟨1/2, [], "ai", "cond"⟩)
    (fun _ _ => Except.error "boom") ⟨1/2, [], "ai", "cond"⟩ rfl).1 "boom" rfl

theorem find_idx_spec (c : Char) : ∀ (s : List Char) (i : ℕ),
    find_idx c s = some i → ∃ hlt : i < s.length, s.get ⟨i, hlt⟩ = c := by
  intro s
  induction s with
  | nil => intro i h; exact Option.noConfusion h
  | cons x xs ih =>
    intro i h
    unfold find_idx at h
    by_cases hx : x = c
    · rw [if_pos hx] at h
      cases h
      exact ⟨Nat.succ_pos _, hx⟩
    · rw [if_neg hx] at h
      cases hfx : find_idx c xs with
      | none => rw [hfx] at h; exact Option.noConfusion h
      | some j =>
        rw [hfx] at h
        simp at h
        obtain ⟨hlt, hget⟩ := ih j hfx
        subst h
        exact ⟨Nat.succ_lt_succ hlt, hget⟩

theorem rfind_idx_spec (c : Char) : ∀ (s : List Char) (i : ℕ),
    rfind_idx c s = some i → ∃ hlt : i < s.length, s.get ⟨i, hlt⟩ = c := by
  intro s
  induction s with
  | nil => intro i h; exact Option.noConfusion h
  | cons x xs ih =>
    intro i h
    unfold rfind_idx at h
    cases hfx : rfind_idx c xs with
    | some j =>
      rw [hfx] at h
      cases h
      obtain ⟨hlt, hget⟩ := ih j hfx
      exact ⟨Nat.succ_lt_succ hlt, hget⟩
    | none =>
      rw [hfx] at h
      by_cases hx : x = c
      · rw [if_pos hx] at h
        cases h
        exact ⟨Nat.succ_pos _, hx⟩
      · rw [if_neg hx] at h
        exact Option.noConfusion h

/-- C7: when the model response text contains no brace-delimited region (no
opening brace occurring at or before a closing brace), the parser returns,
without failing, the fallback result: confidence 0.3, empty item list,
description equal to the first 500 characters of the raw text, and
condition assessment "Could not parse detailed assessment" — for every
possible JSON decoder. -/
theorem identify_no_json_fallback
    (decode : List Char → Except String ParsedData) (response_text : List Char)
    (h : ∀ i : Fin response_text.length, ∀ j : Fin response_text.length,
      i.1 ≤ j.1 →
      ¬(response_text.get i = lbrace ∧ response_text.get j = rbrace)) :
    identify_from_response decode response_text
      = { confidence_score := 3/10,
          identified_items := [],
          description := String.mk (response_text.take 500),
          condition_assessment := "Could not parse detailed assessment" } := by
  have hcond : ¬(py_find lbrace response_text ≥ 0
      ∧ py_rfind rbrace response_text + 1 > py_find lbrace response_text) := by
    rintro ⟨hge, hgt⟩
    unfold py_find at hge hgt
    unfold py_rfind at hgt
    cases hf : find_idx lbrace response_text with
    | none => rw [hf] at hge; simp at hge
    | some i =>
      cases hr : rfind_idx rbrace response_text with
      | none =>
        rw [hf, hr] at hgt
        simp at hgt
        omega
      | some j =>
        rw [hf, hr] at hgt
        simp at hgt
        obtain ⟨hlt_i, hget_i⟩ := find_idx_spec lbrace response_text i hf
        obtain ⟨hlt_j, hget_j⟩ := rfind_idx_spec rbrace response_text j hr
        have hij : i ≤ j := by omega
        exact h ⟨i, hlt_i⟩ ⟨j, hlt_j⟩ hij ⟨hget_i, hget_j⟩
  unfold identify_from_response
  rw [if_neg hcond]

/-- Witness for C7: a brace-free two-character response with an
always-failing decoder. -/
theorem identify_no_json_fallback_witness :
    identify_from_response (fun _ => Except.error "bad json") [Char.ofNat 104, Char.ofNat 105]
      = { confidence_score := 3/10,
          identified_items := [],
          description := String.mk ([Char.ofNat 104, Char.ofNat 105].take 500),
          condition_assessment := "Could not parse detailed assessment" } :=
  identify_no_json_fallback (fun _ => Except.error "bad json")
    [Char.ofNat 104, Char.ofNat 105] (by decide)
